import Mathlib

/-!
Shallow embedding of the Smart City Planner temporal simulation and metrics
engine (src/engine/Simulator.js, the scenario catalog in the constants module,
and the zone-distribution deriver in the metrics module).

JavaScript numbers are modelled as exact rationals; Math.round is modelled as
round-half-up (floor of x + 1/2, matching JS semantics on negative halves);
the JS expression x || y over numbers is modelled as the zero-fallback.
The asynchronous pacing (sleep) of simulateTo has no effect on the statistics
and is dropped; the per-year loop is run with explicit fuel equal to the
distance to the target year, which is exactly the number of iterations the
JS while loop performs.  The onUpdate callback trace is returned as a list.
-/

/-- JS Math.round on an exact rational: round half toward positive infinity. -/
def jsRound (q : ℚ) : ℤ := ⌊q + 1/2⌋

/-- JS numeric x || y: the left operand unless it is falsy (zero). -/
def jsOr (x y : ℚ) : ℚ := if x = 0 then y else x

/-- Math.min(100, Math.max(0, q)), the clamp used for bounded metrics. -/
def clamp01 (q : ℚ) : ℚ := min 100 (max 0 q)

/-- The city statistics record (city.stats) mutated by the engine. -/
structure Stats where
  population : ℚ
  sustainabilityScore : ℚ
  carbonFootprint : ℚ
  energyEfficiency : ℚ
  greenCoverage : ℚ
  transitScore : ℚ
  walkability : ℚ
  airQuality : ℚ
  energyConsumption : ℚ
deriving DecidableEq, Repr

/-- The zone-count distribution (city.distribution), read by the deriver. -/
structure ZoneDist where
  empty : ℤ
  residential : ℤ
  commercial : ℤ
  industrial : ℤ
  green : ℤ
  transit : ℤ
  road : ℤ
deriving DecidableEq, Repr

/-- The snapshot handed to a scenario modifier by applyScenario: the eight
statistics fields plus the synthesized trafficDensity = 50 and the
energyDemand alias of energyConsumption. -/
structure Snapshot where
  population : ℚ
  sustainabilityScore : ℚ
  carbonFootprint : ℚ
  energyEfficiency : ℚ
  greenCoverage : ℚ
  transitScore : ℚ
  walkability : ℚ
  airQuality : ℚ
  trafficDensity : ℚ
  energyDemand : ℚ
deriving DecidableEq, Repr

/-- Build the modifier input snapshot from the current statistics,
as applyScenario does. -/
def snapshotOf (st : Stats) : Snapshot where
  population := st.population
  sustainabilityScore := st.sustainabilityScore
  carbonFootprint := st.carbonFootprint
  energyEfficiency := st.energyEfficiency
  greenCoverage := st.greenCoverage
  transitScore := st.transitScore
  walkability := st.walkability
  airQuality := st.airQuality
  trafficDensity := 50
  energyDemand := st.energyConsumption

/-- A scenario definition from the SCENARIOS constant: display name,
description, and the pure modifier over a snapshot. -/
structure ScenarioDef where
  name : String
  description : String
  modifier : Snapshot → Snapshot

/-- SCENARIOS entry for the population-growth scenario. -/
def populationGrowth : ScenarioDef where
  name := "Population +50%"
  description := "Simulate rapid population growth"
  modifier := fun c =>
    { c with
      population := c.population * (3/2)
      trafficDensity := c.trafficDensity * (8/5)
      energyDemand := c.energyDemand * (7/5) }

/-- SCENARIOS entry for the add-transit scenario. -/
def addTransit : ScenarioDef where
  name := "Add Transit Line"
  description := "New metro line across city"
  modifier := fun c =>
    { c with
      transitScore := c.transitScore + 15
      trafficDensity := c.trafficDensity * (17/20)
      carbonFootprint := c.carbonFootprint * (9/10) }

/-- SCENARIOS entry for the green-expansion scenario. -/
def greenExpansion : ScenarioDef where
  name := "Green Expansion"
  description := "Convert 10% industrial to parks"
  modifier := fun c =>
    { c with
      greenCoverage := c.greenCoverage + 10
      airQuality := c.airQuality + 12
      sustainabilityScore := c.sustainabilityScore + 8 }

/-- SCENARIOS entry for the renewable-energy scenario. -/
def renewableEnergy : ScenarioDef where
  name := "100% Renewable"
  description := "Switch to renewable energy"
  modifier := fun c =>
    { c with
      carbonFootprint := c.carbonFootprint * (3/10)
      energyEfficiency := c.energyEfficiency + 20
      sustainabilityScore := c.sustainabilityScore + 15 }

/-- The SCENARIOS catalog lookup: id to scenario definition, none if absent. -/
def SCENARIOS (id : String) : Option ScenarioDef :=
  if id = "population-growth" then some populationGrowth
  else if id = "add-transit" then some addTransit
  else if id = "green-expansion" then some greenExpansion
  else if id = "renewable-energy" then some renewableEnergy
  else none

/-- An applied-scenario history record pushed by applyScenario. -/
structure AppliedScenario where
  id : String
  name : String
  appliedAt : ℤ
deriving DecidableEq, Repr

/-- The Simulator instance state: the shared city statistics and zone
distribution, the running flag, the clock fields, the scenario history, and
the baseline snapshots taken at construction. -/
structure SimState where
  stats : Stats
  distribution : ZoneDist
  isRunning : Bool
  currentYear : ℤ
  baseYear : ℤ
  targetYear : ℤ
  history : List AppliedScenario
  baselineStats : Stats
  baselineDistribution : ZoneDist
deriving DecidableEq, Repr

/-- The Simulator constructor: saveBaseline deep-copies the supplied stats
and distribution, and all year fields start at the construction year. -/
def mkSimulator (st : Stats) (d : ZoneDist) (year : ℤ) : SimState where
  stats := st
  distribution := d
  isRunning := false
  currentYear := year
  baseYear := year
  targetYear := year
  history := []
  baselineStats := st
  baselineDistribution := d

/-- The before/after result object returned by applyScenario. -/
structure ApplyResult where
  before : Stats
  after : Stats
  scenarioName : String
deriving DecidableEq, Repr

/-- Simulator.applyScenario: look up the scenario (null result, no mutation
when absent); run the modifier on a snapshot of the current stats; write back
population, sustainabilityScore, carbonFootprint, energyEfficiency,
transitScore, walkability, airQuality with the zero/falsy fallback to the
prior value, clamping the bounded ones to [0,100] and rounding all of them;
push a history record; return the before/after pair. -/
def applyScenario (s : SimState) (id : String) : Option ApplyResult × SimState :=
  match SCENARIOS id with
  | none => (none, s)
  | some sc =>
    let before := s.stats
    let m := sc.modifier (snapshotOf s.stats)
    let newStats : Stats :=
      { s.stats with
        population := ↑(jsRound (jsOr m.population s.stats.population))
        sustainabilityScore :=
          ↑(jsRound (clamp01 (jsOr m.sustainabilityScore s.stats.sustainabilityScore)))
        carbonFootprint := ↑(jsRound (jsOr m.carbonFootprint s.stats.carbonFootprint))
        energyEfficiency :=
          ↑(jsRound (clamp01 (jsOr m.energyEfficiency s.stats.energyEfficiency)))
        transitScore := ↑(jsRound (clamp01 (jsOr m.transitScore s.stats.transitScore)))
        walkability := ↑(jsRound (clamp01 (jsOr m.walkability s.stats.walkability)))
        airQuality := ↑(jsRound (clamp01 (jsOr m.airQuality s.stats.airQuality))) }
    let s2 := { s with
      stats := newStats
      history := s.history ++ [⟨id, sc.name, s.currentYear⟩] }
    (some ⟨before, newStats, sc.name⟩, s2)

/-- Simulator.applyYearlyChanges: recompute population, airQuality,
walkability, carbonFootprint from the baseline and the elapsed years. -/
def applyYearlyChanges (s : SimState) : SimState :=
  let e : ℤ := s.currentYear - s.baseYear
  { s with stats :=
    { s.stats with
      population := ↑(jsRound (s.baselineStats.population * (1 + 15/1000 : ℚ) ^ e))
      airQuality :=
        ↑(max 30 (jsRound (s.baselineStats.airQuality * (1 - (5/1000 : ℚ) * (e : ℚ) * (1/2)))))
      walkability :=
        ↑(max 20 (jsRound (s.baselineStats.walkability * (1 - (5/1000 : ℚ) * (e : ℚ) * (3/10)))))
      carbonFootprint := ↑(jsRound (s.baselineStats.carbonFootprint + (e : ℚ) * (1/2))) } }

/-- Simulator.revertYearlyChanges: at or before the base year restore the full
baseline statistics, otherwise reapply the yearly formulas. -/
def revertYearlyChanges (s : SimState) : SimState :=
  if s.currentYear - s.baseYear ≤ 0 then { s with stats := s.baselineStats }
  else applyYearlyChanges s

/-- One iteration of the simulateTo while loop: advance the year by the
direction and apply or revert the yearly changes. -/
def stepOnce (s : SimState) (dir : ℤ) : SimState :=
  let s1 := { s with currentYear := s.currentYear + dir }
  if 0 < dir then applyYearlyChanges s1 else revertYearlyChanges s1

/-- The simulateTo loop body iterated a fixed number of times, collecting the
onUpdate callback trace (year, deep copy of stats) per iteration. -/
def runLoop : Nat → ℤ → SimState → SimState × List (ℤ × Stats)
  | 0, _, s => (s, [])
  | n + 1, dir, s =>
    let s2 := stepOnce s dir
    let r := runLoop n dir s2
    (r.1, (s2.currentYear, s2.stats) :: r.2)

/-- The direction computed by simulateTo: +1 when the target is strictly
ahead of the current year, otherwise -1. -/
def direction (s : SimState) (target : ℤ) : ℤ :=
  if target > s.currentYear then 1 else -1

/-- Simulator.simulateTo: no-op when already running; otherwise set the
running flag, loop one year at a time toward the target (the loop runs
exactly the distance to the target many iterations), and clear the flag.
Returns the final state and the onUpdate trace. -/
def simulateTo (s : SimState) (target : ℤ) : SimState × List (ℤ × Stats) :=
  if s.isRunning then (s, [])
  else
    let dir := direction s target
    let n := (target - s.currentYear).natAbs
    let r := runLoop n dir { s with isRunning := true }
    ({ r.1 with isRunning := false }, r.2)

/-- The zone-distribution chart view returned by Metrics.getZoneDistribution. -/
structure ZoneView where
  labels : List String
  data : List ℤ
  colors : List String
deriving DecidableEq, Repr

/-- The denominator used by getZoneDistribution: the sum of every zone count
minus the empty count. -/
def totalNonEmpty (d : ZoneDist) : ℤ :=
  (d.empty + d.residential + d.commercial + d.industrial + d.green + d.transit + d.road)
    - d.empty

/-- The fixed zone iteration order with the count of each zone, display name and
color from ZONE_TYPES. -/
def zoneRows (d : ZoneDist) : List (ℤ × String × String) :=
  [(d.residential, "Residential", "#3b82f6"),
   (d.commercial, "Commercial", "#f59e0b"),
   (d.industrial, "Industrial", "#6b7280"),
   (d.green, "Green Space", "#22c55e"),
   (d.transit, "Transit Hub", "#ec4899"),
   (d.road, "Road", "#374151")]

/-- Metrics.getZoneDistribution: empty view when the denominator is zero;
otherwise, in the fixed zone order, keep the zones with positive count and
report each share as round(count / denominator * 100). -/
def getZoneDistribution (d : ZoneDist) : ZoneView :=
  let total := totalNonEmpty d
  if total = 0 then ⟨[], [], []⟩
  else
    let kept := (zoneRows d).filter (fun z => 0 < z.1)
    { labels := kept.map (fun z => z.2.1)
      data := kept.map (fun z => jsRound ((z.1 : ℚ) / (total : ℚ) * 100))
      colors := kept.map (fun z => z.2.2) }

/-! ## Example states shared by several developments -/

/-- A representative well-formed statistics record. -/
def exStats : Stats := ⟨500000, 50, 10, 60, 20, 50, 70, 80, 1000⟩

/-- The zone distribution from the worked example of the specification. -/
def exDist : ZoneDist := ⟨0, 40, 10, 5, 20, 5, 20⟩

/-- A fresh simulator over the example city at base year 2025. -/
def exSim : SimState := mkSimulator exStats exDist 2025

/-- The example statistics with airQuality at the upper bound 100. -/
def exStatsHi : Stats := ⟨500000, 50, 10, 60, 20, 50, 70, 100, 1000⟩

/-- A fresh simulator over the airQuality-100 city at base year 2025. -/
def exSimHi : SimState := mkSimulator exStatsHi exDist 2025

/-! ## Arithmetic helper lemmas -/

/-- A rational is integral when its reduced denominator is one. -/
def IsInt (q : ℚ) : Prop := q.den = 1

instance (q : ℚ) : Decidable (IsInt q) := by unfold IsInt; infer_instance

/-- A bounded metric value: integral and within [0, 100]. -/
def Bounded01 (q : ℚ) : Prop := IsInt q ∧ 0 ≤ q ∧ q ≤ 100

instance (q : ℚ) : Decidable (Bounded01 q) := by unfold Bounded01; infer_instance

/-! ## Field projections used to state frame properties -/

/-- The four statistics fields governed by the yearly formulas. -/
def fourOf (st : Stats) : ℚ × ℚ × ℚ × ℚ :=
  (st.population, st.airQuality, st.walkability, st.carbonFootprint)

/-- The statistics fields the time-stepping loop is claimed to leave alone. -/
def otherOf (st : Stats) : ℚ × ℚ × ℚ × ℚ × ℚ :=
  (st.sustainabilityScore, st.energyEfficiency, st.greenCoverage,
   st.transitScore, st.energyConsumption)

/-- The four yearly-formula values as a function of the baseline, the base
year and the year being computed. -/
def yearlyFour (b : Stats) (base y : ℤ) : ℚ × ℚ × ℚ × ℚ :=
  (↑(jsRound (b.population * (1 + 15/1000 : ℚ) ^ (y - base))),
   ↑(max 30 (jsRound (b.airQuality * (1 - (5/1000 : ℚ) * ((y - base : ℤ) : ℚ) * (1/2))))),
   ↑(max 20 (jsRound (b.walkability * (1 - (5/1000 : ℚ) * ((y - base : ℤ) : ℚ) * (3/10))))),
   ↑(jsRound (b.carbonFootprint + ((y - base : ℤ) : ℚ) * (1/2))))

/-- The four-field values after a step that lands on year y: the yearly
formulas above the base year, the baseline values at or below it. -/
def steadyFour (b : Stats) (base y : ℤ) : ℚ × ℚ × ℚ × ℚ :=
  if y ≤ base then fourOf b else yearlyFour b base y

/-! ## Well-formedness of the statistics record -/

/-- The data-model invariant: every bounded metric is an integer in [0,100];
population, carbonFootprint and energyConsumption are integers. -/
def WF (st : Stats) : Prop :=
  IsInt st.population ∧ Bounded01 st.sustainabilityScore ∧
  IsInt st.carbonFootprint ∧ Bounded01 st.energyEfficiency ∧
  Bounded01 st.greenCoverage ∧ Bounded01 st.transitScore ∧
  Bounded01 st.walkability ∧ Bounded01 st.airQuality ∧
  IsInt st.energyConsumption

instance (st : Stats) : Decidable (WF st) := by unfold WF; infer_instance

theorem isInt_intCast (n : ℤ) : IsInt (n : ℚ) := Rat.den_intCast n

theorem jsRound_intCast (n : ℤ) : jsRound (n : ℚ) = n := by
  unfold jsRound
  rw [Int.floor_int_add]
  norm_num

theorem jsRound_eq_self {q : ℚ} (h : IsInt q) : (jsRound q : ℚ) = q := by
  have hq : (q.num : ℚ) = q := (Rat.den_eq_one_iff q).mp h
  rw [← hq, jsRound_intCast]

theorem jsRound_mono {a b : ℚ} (h : a ≤ b) : jsRound a ≤ jsRound b :=
  Int.floor_le_floor (add_le_add_right h _)

theorem jsRound_nonneg {q : ℚ} (h : 0 ≤ q) : 0 ≤ jsRound q := by
  have h0 : jsRound (0 : ℚ) = 0 := by
    have := jsRound_intCast 0
    simpa using this
  calc (0 : ℤ) = jsRound 0 := h0.symm
    _ ≤ jsRound q := jsRound_mono h

theorem jsRound_le_hundred {q : ℚ} (h : q ≤ 100) : jsRound q ≤ 100 := by
  have h100 : jsRound ((100 : ℤ) : ℚ) = 100 := jsRound_intCast 100
  calc jsRound q ≤ jsRound ((100 : ℤ) : ℚ) := jsRound_mono (by exact_mod_cast h)
    _ = 100 := h100

theorem clamp01_nonneg (q : ℚ) : 0 ≤ clamp01 q :=
  le_min (by norm_num) (le_max_left 0 q)

theorem clamp01_le_hundred (q : ℚ) : clamp01 q ≤ 100 := min_le_left _ _

theorem clamp01_eq_self {q : ℚ} (h0 : 0 ≤ q) (h1 : q ≤ 100) : clamp01 q = q := by
  unfold clamp01
  rw [max_eq_right h0, min_eq_right h1]

/-- The stored value of a bounded-metric write-back is a valid bounded metric,
whatever the modifier produced. -/
theorem bounded01_roundClamp (q : ℚ) : Bounded01 ((jsRound (clamp01 q) : ℤ) : ℚ) := by
  refine ⟨isInt_intCast _, ?_, ?_⟩
  · exact_mod_cast jsRound_nonneg (clamp01_nonneg q)
  · exact_mod_cast jsRound_le_hundred (clamp01_le_hundred q)

/-- Round-then-clamp is the identity on an already valid bounded metric. -/
theorem roundClamp_eq_self {q : ℚ} (h : Bounded01 q) :
    ((jsRound (clamp01 q) : ℤ) : ℚ) = q := by
  rw [clamp01_eq_self h.2.1 h.2.2, jsRound_eq_self h.1]

theorem applyYearlyChanges_four (s : SimState) :
    fourOf (applyYearlyChanges s).stats =
      yearlyFour s.baselineStats s.baseYear s.currentYear := rfl

theorem applyYearlyChanges_other (s : SimState) :
    otherOf (applyYearlyChanges s).stats = otherOf s.stats := rfl

theorem revertYearlyChanges_four (s : SimState) :
    fourOf (revertYearlyChanges s).stats =
      steadyFour s.baselineStats s.baseYear s.currentYear := by
  unfold revertYearlyChanges steadyFour
  rcases le_or_lt s.currentYear s.baseYear with h | h
  · rw [if_pos (by omega), if_pos h]
  · rw [if_neg (by omega), if_neg (by omega), applyYearlyChanges_four]

theorem stepOnce_frame (s : SimState) (dir : ℤ) :
    (stepOnce s dir).baselineStats = s.baselineStats ∧
    (stepOnce s dir).baseYear = s.baseYear ∧
    (stepOnce s dir).currentYear = s.currentYear + dir ∧
    (stepOnce s dir).isRunning = s.isRunning ∧
    (stepOnce s dir).distribution = s.distribution ∧
    (stepOnce s dir).history = s.history ∧
    (stepOnce s dir).targetYear = s.targetYear ∧
    (stepOnce s dir).baselineDistribution = s.baselineDistribution := by
  unfold stepOnce revertYearlyChanges applyYearlyChanges
  dsimp only
  split
  · exact ⟨rfl, rfl, rfl, rfl, rfl, rfl, rfl, rfl⟩
  · split <;> exact ⟨rfl, rfl, rfl, rfl, rfl, rfl, rfl, rfl⟩

theorem stepOnce_four (s : SimState) (dir : ℤ) :
    fourOf (stepOnce s dir).stats =
      if 0 < dir then yearlyFour s.baselineStats s.baseYear (s.currentYear + dir)
      else steadyFour s.baselineStats s.baseYear (s.currentYear + dir) := by
  unfold stepOnce
  dsimp only
  split
  · exact applyYearlyChanges_four _
  · exact revertYearlyChanges_four _

theorem stepOnce_other (s : SimState) (dir : ℤ)
    (h : 0 < dir ∨ s.baseYear < s.currentYear + dir) :
    otherOf (stepOnce s dir).stats = otherOf s.stats := by
  unfold stepOnce
  dsimp only
  split
  · exact applyYearlyChanges_other _
  · unfold revertYearlyChanges
    rw [if_neg (by dsimp only; omega)]
    exact applyYearlyChanges_other _

theorem runLoop_frame (n : ℕ) (dir : ℤ) (s : SimState) :
    (runLoop n dir s).1.baselineStats = s.baselineStats ∧
    (runLoop n dir s).1.baseYear = s.baseYear ∧
    (runLoop n dir s).1.currentYear = s.currentYear + n * dir ∧
    (runLoop n dir s).1.isRunning = s.isRunning ∧
    (runLoop n dir s).1.distribution = s.distribution ∧
    (runLoop n dir s).1.history = s.history ∧
    (runLoop n dir s).1.targetYear = s.targetYear ∧
    (runLoop n dir s).1.baselineDistribution = s.baselineDistribution := by
  induction n generalizing s with
  | zero => simp [runLoop]
  | succ k ih =>
    have hs := stepOnce_frame s dir
    have hk := ih (stepOnce s dir)
    unfold runLoop
    dsimp only
    refine ⟨?_, ?_, ?_, ?_, ?_, ?_, ?_, ?_⟩
    · rw [hk.1, hs.1]
    · rw [hk.2.1, hs.2.1]
    · rw [hk.2.2.1, hs.2.2.1]; push_cast; ring
    · rw [hk.2.2.2.1, hs.2.2.2.1]
    · rw [hk.2.2.2.2.1, hs.2.2.2.2.1]
    · rw [hk.2.2.2.2.2.1, hs.2.2.2.2.2.1]
    · rw [hk.2.2.2.2.2.2.1, hs.2.2.2.2.2.2.1]
    · rw [hk.2.2.2.2.2.2.2, hs.2.2.2.2.2.2.2]

theorem runLoop_four_forward (n : ℕ) (hn : 1 ≤ n) (s : SimState) :
    fourOf ((runLoop n 1 s).1).stats =
      yearlyFour s.baselineStats s.baseYear (s.currentYear + n) := by
  induction n generalizing s with
  | zero => omega
  | succ k ih =>
    have hs := stepOnce_frame s 1
    by_cases hk : 1 ≤ k
    · have h2 := ih hk (stepOnce s 1)
      unfold runLoop
      dsimp only
      rw [h2, hs.1, hs.2.1, hs.2.2.1]
      congr 1
      omega
    · have hk0 : k = 0 := by omega
      subst hk0
      show fourOf ((runLoop 0 1 (stepOnce s 1)).1).stats = _
      unfold runLoop
      dsimp only
      have h4 := stepOnce_four s 1
      rw [if_pos (by norm_num)] at h4
      rw [h4]
      congr 1

theorem runLoop_four_backward (n : ℕ) (hn : 1 ≤ n) (s : SimState) :
    fourOf ((runLoop n (-1) s).1).stats =
      steadyFour s.baselineStats s.baseYear (s.currentYear - n) := by
  induction n generalizing s with
  | zero => omega
  | succ k ih =>
    have hs := stepOnce_frame s (-1)
    by_cases hk : 1 ≤ k
    · have h2 := ih hk (stepOnce s (-1))
      unfold runLoop
      dsimp only
      rw [h2, hs.1, hs.2.1, hs.2.2.1]
      congr 1
      omega
    · have hk0 : k = 0 := by omega
      subst hk0
      show fourOf ((runLoop 0 (-1) (stepOnce s (-1))).1).stats = _
      unfold runLoop
      dsimp only
      have h4 := stepOnce_four s (-1)
      rw [if_neg (by norm_num)] at h4
      rw [h4]
      congr 1

theorem runLoop_other_forward (n : ℕ) (s : SimState) :
    otherOf ((runLoop n 1 s).1).stats = otherOf s.stats := by
  induction n generalizing s with
  | zero => simp [runLoop]
  | succ k ih =>
    unfold runLoop
    dsimp only
    rw [ih (stepOnce s 1), stepOnce_other s 1 (Or.inl (by norm_num))]

theorem runLoop_other_backward (n : ℕ) (s : SimState)
    (h : s.baseYear < s.currentYear - n) :
    otherOf ((runLoop n (-1) s).1).stats = otherOf s.stats := by
  induction n generalizing s with
  | zero => simp [runLoop]
  | succ k ih =>
    have hs := stepOnce_frame s (-1)
    unfold runLoop
    dsimp only
    have hstep : otherOf (stepOnce s (-1)).stats = otherOf s.stats := by
      apply stepOnce_other
      right
      push_cast at h
      omega
    have hrec : otherOf ((runLoop k (-1) (stepOnce s (-1))).1).stats =
        otherOf (stepOnce s (-1)).stats := by
      apply ih
      rw [hs.2.1, hs.2.2.1]
      push_cast at h ⊢
      omega
    rw [hrec, hstep]

theorem simulateTo_frame (s : SimState) (t : ℤ) :
    (simulateTo s t).1.baselineStats = s.baselineStats ∧
    (simulateTo s t).1.baseYear = s.baseYear ∧
    (simulateTo s t).1.isRunning = s.isRunning ∧
    (simulateTo s t).1.distribution = s.distribution ∧
    (simulateTo s t).1.history = s.history ∧
    (simulateTo s t).1.targetYear = s.targetYear ∧
    (simulateTo s t).1.baselineDistribution = s.baselineDistribution := by
  unfold simulateTo
  by_cases h : s.isRunning
  · rw [if_pos h]
    exact ⟨rfl, rfl, rfl, rfl, rfl, rfl, rfl⟩
  · rw [if_neg h]
    dsimp only
    have hfr := runLoop_frame ((t - s.currentYear).natAbs) (direction s t)
      { s with isRunning := true }
    refine ⟨?_, ?_, ?_, ?_, ?_, ?_, ?_⟩
    · rw [hfr.1]
    · rw [hfr.2.1]
    · simp only [Bool.not_eq_true] at h
      rw [h]
    · rw [hfr.2.2.2.2.1]
    · rw [hfr.2.2.2.2.2.1]
    · rw [hfr.2.2.2.2.2.2.1]
    · rw [hfr.2.2.2.2.2.2.2]

theorem simulateTo_currentYear (s : SimState) (t : ℤ) (h : s.isRunning = false) :
    (simulateTo s t).1.currentYear = t := by
  unfold simulateTo
  rw [h, if_neg Bool.false_ne_true]
  dsimp only
  have hfr := runLoop_frame ((t - s.currentYear).natAbs) (direction s t)
    { s with isRunning := true }
  rw [hfr.2.2.1]
  unfold direction
  by_cases ht : t > s.currentYear
  · rw [if_pos ht]
    dsimp only
    omega
  · rw [if_neg ht]
    dsimp only
    omega

theorem simulateTo_eq_self (s : SimState) (t : ℤ) (h : s.isRunning = false)
    (ht : t = s.currentYear) : simulateTo s t = (s, []) := by
  unfold simulateTo
  rw [h, if_neg Bool.false_ne_true]
  dsimp only
  have hn : (t - s.currentYear).natAbs = 0 := by omega
  rw [hn]
  unfold runLoop
  dsimp only
  cases s
  simp_all

theorem simulateTo_four_forward (s : SimState) (t : ℤ) (h : s.isRunning = false)
    (hlt : s.currentYear < t) :
    fourOf ((simulateTo s t).1).stats =
      yearlyFour s.baselineStats s.baseYear t := by
  unfold simulateTo
  rw [h, if_neg Bool.false_ne_true]
  dsimp only
  have hdir : direction s t = 1 := by
    unfold direction
    rw [if_pos (by omega)]
  rw [hdir]
  have hn : 1 ≤ (t - s.currentYear).natAbs := by omega
  have h4 := runLoop_four_forward ((t - s.currentYear).natAbs) hn
    { s with isRunning := true }
  have harg : ({ s with isRunning := true } : SimState).currentYear +
      ((t - s.currentYear).natAbs : ℤ) = t := by
    dsimp only
    omega
  rw [harg] at h4
  exact h4

theorem simulateTo_four_backward (s : SimState) (t : ℤ) (h : s.isRunning = false)
    (hlt : t < s.currentYear) :
    fourOf ((simulateTo s t).1).stats =
      steadyFour s.baselineStats s.baseYear t := by
  unfold simulateTo
  rw [h, if_neg Bool.false_ne_true]
  dsimp only
  have hdir : direction s t = -1 := by
    unfold direction
    rw [if_neg (by omega)]
  rw [hdir]
  have hn : 1 ≤ (t - s.currentYear).natAbs := by omega
  have h4 := runLoop_four_backward ((t - s.currentYear).natAbs) hn
    { s with isRunning := true }
  have harg : ({ s with isRunning := true } : SimState).currentYear -
      ((t - s.currentYear).natAbs : ℤ) = t := by
    dsimp only
    omega
  rw [harg] at h4
  exact h4

theorem applyScenario_unknown_eq (s : SimState) (id : String)
    (h : SCENARIOS id = none) : applyScenario s id = (none, s) := by
  unfold applyScenario
  rw [h]

theorem applyScenario_known_stats (s : SimState) (id : String) (sc : ScenarioDef)
    (h : SCENARIOS id = some sc) :
    ((applyScenario s id).2).stats =
      { s.stats with
        population :=
          ↑(jsRound (jsOr (sc.modifier (snapshotOf s.stats)).population s.stats.population))
        sustainabilityScore :=
          ↑(jsRound (clamp01 (jsOr (sc.modifier (snapshotOf s.stats)).sustainabilityScore
            s.stats.sustainabilityScore)))
        carbonFootprint :=
          ↑(jsRound (jsOr (sc.modifier (snapshotOf s.stats)).carbonFootprint
            s.stats.carbonFootprint))
        energyEfficiency :=
          ↑(jsRound (clamp01 (jsOr (sc.modifier (snapshotOf s.stats)).energyEfficiency
            s.stats.energyEfficiency)))
        transitScore :=
          ↑(jsRound (clamp01 (jsOr (sc.modifier (snapshotOf s.stats)).transitScore
            s.stats.transitScore)))
        walkability :=
          ↑(jsRound (clamp01 (jsOr (sc.modifier (snapshotOf s.stats)).walkability
            s.stats.walkability)))
        airQuality :=
          ↑(jsRound (clamp01 (jsOr (sc.modifier (snapshotOf s.stats)).airQuality
            s.stats.airQuality))) } := by
  unfold applyScenario
  rw [h]

theorem applyScenario_WF (s : SimState) (id : String) (h : WF s.stats) :
    WF ((applyScenario s id).2).stats := by
  cases hs : SCENARIOS id with
  | none => rw [applyScenario_unknown_eq s id hs]; exact h
  | some sc =>
    rw [applyScenario_known_stats s id sc hs]
    exact ⟨isInt_intCast _, bounded01_roundClamp _, isInt_intCast _,
      bounded01_roundClamp _, h.2.2.2.2.1, bounded01_roundClamp _,
      bounded01_roundClamp _, bounded01_roundClamp _, h.2.2.2.2.2.2.2.2⟩

theorem bounded01_maxRound (lo : ℤ) (hlo0 : 0 ≤ lo) (hlo : lo ≤ 100) (q : ℚ)
    (hq : q ≤ 100) : Bounded01 ((max lo (jsRound q) : ℤ) : ℚ) := by
  refine ⟨isInt_intCast _, ?_, ?_⟩
  · exact_mod_cast le_trans hlo0 (le_max_left lo (jsRound q))
  · exact_mod_cast max_le hlo (jsRound_le_hundred hq)

theorem degraded_le_hundred {b e r : ℚ} (hb0 : 0 ≤ b) (hb1 : b ≤ 100)
    (he : 0 ≤ e) (hr : 0 ≤ r) : b * (1 - r * e) ≤ 100 := by
  nlinarith [mul_nonneg hb0 (mul_nonneg hr he)]

theorem applyYearlyChanges_WF (s : SimState) (hw : WF s.stats)
    (hwb : WF s.baselineStats) (he : 0 ≤ s.currentYear - s.baseYear) :
    WF (applyYearlyChanges s).stats := by
  have heq : (0 : ℚ) ≤ ((s.currentYear - s.baseYear : ℤ) : ℚ) := by exact_mod_cast he
  have hbaq := hwb.2.2.2.2.2.2.2.1
  have hbwk := hwb.2.2.2.2.2.2.1
  have haq : s.baselineStats.airQuality *
      (1 - (5/1000 : ℚ) * ((s.currentYear - s.baseYear : ℤ) : ℚ) * (1/2)) ≤ 100 := by
    have h100 := degraded_le_hundred hbaq.2.1 hbaq.2.2 heq
      (by norm_num : (0 : ℚ) ≤ (5/1000 : ℚ) * (1/2))
    calc s.baselineStats.airQuality *
        (1 - (5/1000 : ℚ) * ((s.currentYear - s.baseYear : ℤ) : ℚ) * (1/2))
        = s.baselineStats.airQuality *
          (1 - (5/1000 : ℚ) * (1/2) * ((s.currentYear - s.baseYear : ℤ) : ℚ)) := by ring
      _ ≤ 100 := h100
  have hwk : s.baselineStats.walkability *
      (1 - (5/1000 : ℚ) * ((s.currentYear - s.baseYear : ℤ) : ℚ) * (3/10)) ≤ 100 := by
    have h100 := degraded_le_hundred hbwk.2.1 hbwk.2.2 heq
      (by norm_num : (0 : ℚ) ≤ (5/1000 : ℚ) * (3/10))
    calc s.baselineStats.walkability *
        (1 - (5/1000 : ℚ) * ((s.currentYear - s.baseYear : ℤ) : ℚ) * (3/10))
        = s.baselineStats.walkability *
          (1 - (5/1000 : ℚ) * (3/10) * ((s.currentYear - s.baseYear : ℤ) : ℚ)) := by ring
      _ ≤ 100 := h100
  exact ⟨isInt_intCast _, hw.2.1, isInt_intCast _, hw.2.2.2.1, hw.2.2.2.2.1,
    hw.2.2.2.2.2.1, bounded01_maxRound 20 (by norm_num) (by norm_num) _ hwk,
    bounded01_maxRound 30 (by norm_num) (by norm_num) _ haq,
    hw.2.2.2.2.2.2.2.2⟩

theorem stepOnce_WF (s : SimState) (dir : ℤ) (hw : WF s.stats)
    (hwb : WF s.baselineStats)
    (hdir : dir = -1 ∨ (dir = 1 ∧ s.baseYear ≤ s.currentYear + 1)) :
    WF (stepOnce s dir).stats := by
  unfold stepOnce
  dsimp only
  rcases hdir with h | ⟨h1, h2⟩
  · subst h
    rw [if_neg (by norm_num)]
    unfold revertYearlyChanges
    split
    · exact hwb
    · next hcond =>
      refine applyYearlyChanges_WF _ hw hwb ?_
      revert hcond
      show ¬((s.currentYear + -1) - s.baseYear ≤ 0) →
        (0 : ℤ) ≤ (s.currentYear + -1) - s.baseYear
      omega
  · subst h1
    rw [if_pos (by norm_num)]
    refine applyYearlyChanges_WF _ hw hwb ?_
    show (0 : ℤ) ≤ (s.currentYear + 1) - s.baseYear
    omega

/-! ## Write-back helper lemmas for the falsy-fallback semantics -/

theorem writeback_unbounded (x p : ℚ) (hp : IsInt p) :
    (↑(jsRound (jsOr x p)) : ℚ) = if x = 0 then p else ↑(jsRound x) := by
  unfold jsOr
  by_cases hx : x = 0
  · rw [if_pos hx, if_pos hx, jsRound_eq_self hp]
  · rw [if_neg hx, if_neg hx]

theorem writeback_bounded (x p : ℚ) (hp : Bounded01 p) :
    (↑(jsRound (clamp01 (jsOr x p))) : ℚ) =
      if x = 0 then p else ↑(jsRound (clamp01 x)) := by
  unfold jsOr
  by_cases hx : x = 0
  · rw [if_pos hx, if_pos hx, roundClamp_eq_self hp]
  · rw [if_neg hx, if_neg hx]

/-! ## Claim theorems -/


theorem applyScenario_frame (s : SimState) (id : String) :
    ((applyScenario s id).2).baselineStats = s.baselineStats ∧
    ((applyScenario s id).2).baseYear = s.baseYear ∧
    ((applyScenario s id).2).currentYear = s.currentYear ∧
    ((applyScenario s id).2).isRunning = s.isRunning ∧
    ((applyScenario s id).2).distribution = s.distribution ∧
    ((applyScenario s id).2).targetYear = s.targetYear ∧
    ((applyScenario s id).2).baselineDistribution = s.baselineDistribution := by
  unfold applyScenario
  cases SCENARIOS id
  · exact ⟨rfl, rfl, rfl, rfl, rfl, rfl, rfl⟩
  · exact ⟨rfl, rfl, rfl, rfl, rfl, rfl, rfl⟩

theorem runLoop_backward_restore (n : ℕ) (hn : 1 ≤ n) (s : SimState)
    (h : s.currentYear - n ≤ s.baseYear) :
    ((runLoop n (-1) s).1).stats = s.baselineStats := by
  induction n generalizing s with
  | zero => omega
  | succ k ih =>
    have hs := stepOnce_frame s (-1)
    by_cases hk : 1 ≤ k
    · have h2 := ih hk (stepOnce s (-1))
      unfold runLoop
      dsimp only
      rw [h2 ?_, hs.1]
      rw [hs.2.1, hs.2.2.1]
      push_cast at h ⊢
      omega
    · have hk0 : k = 0 := by omega
      subst hk0
      show ((runLoop 0 (-1) (stepOnce s (-1))).1).stats = _
      unfold runLoop
      dsimp only
      unfold stepOnce
      rw [if_neg (by norm_num)]
      unfold revertYearlyChanges
      rw [if_pos (by dsimp only; push_cast at h; omega)]

theorem simulateTo_backward_restore (s : SimState) (t : ℤ)
    (hrun : s.isRunning = false) (hlt : t < s.currentYear) (hle : t ≤ s.baseYear) :
    ((simulateTo s t).1).stats = s.baselineStats := by
  unfold simulateTo
  rw [hrun, if_neg Bool.false_ne_true]
  dsimp only
  have hdir : direction s t = -1 := by
    unfold direction
    rw [if_neg (by omega)]
  rw [hdir]
  have hn : 1 ≤ (t - s.currentYear).natAbs := by omega
  exact runLoop_backward_restore _ hn _ (by dsimp only; omega)

theorem simulateTo_other_frame (s : SimState) (t : ℤ)
    (h : s.currentYear < t ∨ s.baseYear < t) :
    otherOf ((simulateTo s t).1).stats = otherOf s.stats := by
  by_cases hrun : s.isRunning
  · unfold simulateTo
    rw [if_pos hrun]
  · unfold simulateTo
    rw [if_neg hrun]
    dsimp only
    by_cases hf : t > s.currentYear
    · have hdir : direction s t = 1 := by
        unfold direction
        rw [if_pos hf]
      rw [hdir]
      exact runLoop_other_forward _ _
    · have hdir : direction s t = -1 := by
        unfold direction
        rw [if_neg hf]
      rw [hdir]
      apply runLoop_other_backward
      dsimp only
      rcases h with h | h
      · omega
      · omega

/-! ## Claim theorems -/

/-- C1, counterexample: applying the add-transit scenario to a city with
carbonFootprint 10 stores carbonFootprint 9 — the carbonFootprint
output of the modifier IS written back by applyScenario, contrary to the claim that the
stored carbonFootprint equals its value before the call. -/
theorem c1_carbon_writeback_counterexample :
    ((applyScenario exSim "add-transit").2).stats.carbonFootprint ≠
      exSim.stats.carbonFootprint ∧
    ((applyScenario exSim "add-transit").2).stats.carbonFootprint = 9 ∧
    exSim.stats.carbonFootprint = 10 := by
  have h9 : ((applyScenario exSim "add-transit").2).stats.carbonFootprint = 9 := by
    rw [applyScenario_known_stats exSim "add-transit" addTransit rfl]
    show (jsRound (jsOr ((addTransit.modifier (snapshotOf exSim.stats)).carbonFootprint)
      exSim.stats.carbonFootprint) : ℚ) = 9
    norm_num [addTransit, snapshotOf, exSim, exStats, mkSimulator, jsOr, jsRound]
  refine ⟨?_, h9, rfl⟩
  rw [h9]
  norm_num [exSim, exStats, mkSimulator]

/-- C1, amended: applyScenario persists seven fields (the six claimed ones
plus carbonFootprint); only greenCoverage (and energyConsumption) are never
written back, so they keep their prior values, while the stored
carbonFootprint is the rounded modifier output with the falsy fallback. -/
theorem c1_applyScenario_writeback (s : SimState) (id : String)
    (sc : ScenarioDef) (h : SCENARIOS id = some sc) :
    ((applyScenario s id).2).stats.greenCoverage = s.stats.greenCoverage ∧
    ((applyScenario s id).2).stats.energyConsumption = s.stats.energyConsumption ∧
    ((applyScenario s id).2).stats.carbonFootprint =
      ↑(jsRound (jsOr ((sc.modifier (snapshotOf s.stats)).carbonFootprint)
        s.stats.carbonFootprint)) := by
  rw [applyScenario_known_stats s id sc h]
  exact ⟨rfl, rfl, rfl⟩

/-- C1, witness: the amended write-back property evaluated on the example
city and the add-transit scenario. -/
theorem c1_applyScenario_writeback_witness :
    ((applyScenario exSim "add-transit").2).stats.greenCoverage =
      exSim.stats.greenCoverage ∧
    ((applyScenario exSim "add-transit").2).stats.energyConsumption =
      exSim.stats.energyConsumption ∧
    ((applyScenario exSim "add-transit").2).stats.carbonFootprint =
      ↑(jsRound (jsOr ((addTransit.modifier (snapshotOf exSim.stats)).carbonFootprint)
        exSim.stats.carbonFootprint)) :=
  c1_applyScenario_writeback exSim "add-transit" addTransit rfl

/-- C3: for every known scenario and every written-back field, a zero (falsy)
modifier output keeps the prior stored value, and a non-zero output is stored
as the value the modifier produced, clamped (for the bounded metrics) and rounded —
assuming the statistics record satisfies the data-model invariant. -/
theorem c3_falsy_fallback (s : SimState) (id : String) (sc : ScenarioDef)
    (h : SCENARIOS id = some sc) (hwf : WF s.stats) :
    (((applyScenario s id).2).stats.population =
      if (sc.modifier (snapshotOf s.stats)).population = 0 then s.stats.population
      else ↑(jsRound (sc.modifier (snapshotOf s.stats)).population)) ∧
    (((applyScenario s id).2).stats.sustainabilityScore =
      if (sc.modifier (snapshotOf s.stats)).sustainabilityScore = 0
      then s.stats.sustainabilityScore
      else ↑(jsRound (clamp01 (sc.modifier (snapshotOf s.stats)).sustainabilityScore))) ∧
    (((applyScenario s id).2).stats.carbonFootprint =
      if (sc.modifier (snapshotOf s.stats)).carbonFootprint = 0
      then s.stats.carbonFootprint
      else ↑(jsRound (sc.modifier (snapshotOf s.stats)).carbonFootprint)) ∧
    (((applyScenario s id).2).stats.energyEfficiency =
      if (sc.modifier (snapshotOf s.stats)).energyEfficiency = 0
      then s.stats.energyEfficiency
      else ↑(jsRound (clamp01 (sc.modifier (snapshotOf s.stats)).energyEfficiency))) ∧
    (((applyScenario s id).2).stats.transitScore =
      if (sc.modifier (snapshotOf s.stats)).transitScore = 0 then s.stats.transitScore
      else ↑(jsRound (clamp01 (sc.modifier (snapshotOf s.stats)).transitScore))) ∧
    (((applyScenario s id).2).stats.walkability =
      if (sc.modifier (snapshotOf s.stats)).walkability = 0 then s.stats.walkability
      else ↑(jsRound (clamp01 (sc.modifier (snapshotOf s.stats)).walkability))) ∧
    (((applyScenario s id).2).stats.airQuality =
      if (sc.modifier (snapshotOf s.stats)).airQuality = 0 then s.stats.airQuality
      else ↑(jsRound (clamp01 (sc.modifier (snapshotOf s.stats)).airQuality))) := by
  rw [applyScenario_known_stats s id sc h]
  exact ⟨writeback_unbounded _ _ hwf.1,
    writeback_bounded _ _ hwf.2.1,
    writeback_unbounded _ _ hwf.2.2.1,
    writeback_bounded _ _ hwf.2.2.2.1,
    writeback_bounded _ _ hwf.2.2.2.2.2.1,
    writeback_bounded _ _ hwf.2.2.2.2.2.2.1,
    writeback_bounded _ _ hwf.2.2.2.2.2.2.2.1⟩

/-- C3, witness: the falsy-fallback write-back rule for carbonFootprint,
evaluated on the example city and the add-transit scenario. -/
theorem c3_falsy_fallback_witness :
    ((applyScenario exSim "add-transit").2).stats.carbonFootprint =
      if (addTransit.modifier (snapshotOf exSim.stats)).carbonFootprint = 0
      then exSim.stats.carbonFootprint
      else ↑(jsRound (addTransit.modifier (snapshotOf exSim.stats)).carbonFootprint) :=
  (c3_falsy_fallback exSim "add-transit" addTransit rfl (by decide)).2.2.1

/-- C6: for every scenario id not in the catalog, applyScenario returns a
null result and leaves the whole simulator state — statistics, distribution,
history and year — exactly unchanged. -/
theorem c6_unknown_scenario_noop (s : SimState) (id : String)
    (h : SCENARIOS id = none) : applyScenario s id = (none, s) :=
  applyScenario_unknown_eq s id h

/-- C6, witness: the unknown-scenario no-op evaluated on the example city. -/
theorem c6_unknown_scenario_noop_witness :
    applyScenario exSim "mystery" = (none, exSim) :=
  c6_unknown_scenario_noop exSim "mystery" rfl

/-- C7: whenever the running flag is set, simulateTo returns immediately:
the state is returned unchanged and the onUpdate trace is empty. -/
theorem c7_reentrancy_guard (s : SimState) (t : ℤ) (h : s.isRunning = true) :
    simulateTo s t = (s, []) := by
  unfold simulateTo
  rw [if_pos h]

/-- C7, witness: the re-entrancy guard evaluated on a running simulator. -/
theorem c7_reentrancy_guard_witness :
    simulateTo { exSim with isRunning := true } 2030 =
      ({ exSim with isRunning := true }, []) :=
  c7_reentrancy_guard { exSim with isRunning := true } 2030 rfl

/-- C4, amended: stepping forward past a year and then back to it yields the same
population, airQuality, walkability and carbonFootprint as a single
simulateTo run from the freshly constructed baseline simulator to that year:
the yearly formulas are baseline-relative, so these four fields are
path-independent. -/
theorem c4_path_independence (b : Stats) (d : ZoneDist) (y0 Z Y : ℤ)
    (_h1 : y0 < Z) (h2 : Y < Z) :
    fourOf (((simulateTo ((simulateTo (mkSimulator b d y0) Z).1) Y).1).stats) =
      fourOf (((simulateTo (mkSimulator b d y0) Y).1).stats) := by
  have hs0 : (mkSimulator b d y0).isRunning = false := rfl
  have hfr := simulateTo_frame (mkSimulator b d y0) Z
  have hcy1 : ((simulateTo (mkSimulator b d y0) Z).1).currentYear = Z :=
    simulateTo_currentYear _ _ hs0
  have hL := simulateTo_four_backward ((simulateTo (mkSimulator b d y0) Z).1) Y
    (hfr.2.2.1.trans hs0) (by rw [hcy1]; exact h2)
  rw [hfr.1, hfr.2.1] at hL
  rw [hL]
  rcases lt_trichotomy Y y0 with hY | hY | hY
  · have hR := simulateTo_four_backward (mkSimulator b d y0) Y hs0
      (show Y < (mkSimulator b d y0).currentYear from hY)
    rw [hR]
  · rw [simulateTo_eq_self (mkSimulator b d y0) Y hs0
      (show Y = (mkSimulator b d y0).currentYear from hY)]
    unfold steadyFour
    rw [if_pos (show Y ≤ (mkSimulator b d y0).baseYear from le_of_eq hY)]
    rfl
  · have hR := simulateTo_four_forward (mkSimulator b d y0) Y hs0
      (show (mkSimulator b d y0).currentYear < Y from hY)
    rw [hR]
    unfold steadyFour
    rw [if_neg (show ¬ Y ≤ (mkSimulator b d y0).baseYear by
      show ¬ Y ≤ y0
      omega)]

/-- C4, counterexample: general paths of simulateTo calls ending at a year Y
are NOT path-independent in the four governed fields: the path 2025 to 2020
(backward, restoring the baseline) then 2023 (forward, yearly formulas at
elapsed -2) stores population round(500000 * 1.015 ^ -2) = 485331, while the
direct run from the baseline simulator to 2023 is backward and restores the
baseline population 500000. -/
theorem c4_path_independence_counterexample :
    ((simulateTo ((simulateTo (mkSimulator exStats exDist 2025) 2020).1) 2023).1).stats.population
      = 485331 ∧
    ((simulateTo (mkSimulator exStats exDist 2025) 2023).1).stats.population = 500000 ∧
    (485331 : ℚ) ≠ 500000 := by
  refine ⟨?_, ?_, by norm_num⟩
  · have hfr := simulateTo_frame (mkSimulator exStats exDist 2025) 2020
    have hrun1 : ((simulateTo (mkSimulator exStats exDist 2025) 2020).1).isRunning = false :=
      hfr.2.2.1.trans rfl
    have hcy1 : ((simulateTo (mkSimulator exStats exDist 2025) 2020).1).currentYear = 2020 :=
      simulateTo_currentYear _ _ rfl
    have h4 := simulateTo_four_forward ((simulateTo (mkSimulator exStats exDist 2025) 2020).1)
      2023 hrun1 (by rw [hcy1]; norm_num)
    rw [hfr.1, hfr.2.1] at h4
    have hp : ((simulateTo ((simulateTo (mkSimulator exStats exDist 2025) 2020).1) 2023).1).stats.population
        = (yearlyFour exStats 2025 2023).1 := congrArg (fun p => p.1) h4
    rw [hp]
    norm_num [yearlyFour, jsRound, exStats]
  · have hd := simulateTo_backward_restore (mkSimulator exStats exDist 2025) 2023 rfl
      (show (2023:ℤ) < 2025 by norm_num) (show (2023:ℤ) ≤ 2025 by norm_num)
    rw [hd]
    rfl

/-- C4, witness: path independence evaluated on the example city, stepping
2025 to 2028 and back to 2026 versus one direct run to 2026. -/
theorem c4_path_independence_witness :
    fourOf (((simulateTo ((simulateTo (mkSimulator exStats exDist 2025) 2028).1)
        2026).1).stats) =
      fourOf (((simulateTo (mkSimulator exStats exDist 2025) 2026).1).stats) :=
  c4_path_independence exStats exDist 2025 2028 2026 (by decide) (by decide)

/-- C10: calling simulateTo with the target equal to the current year runs
zero iterations — the state is returned unchanged with an empty onUpdate
trace, the running flag ends false — even though the computed direction for
an equal target is backward. -/
theorem c10_simulateTo_same_year (s : SimState) (t : ℤ)
    (hrun : s.isRunning = false) (ht : t = s.currentYear) :
    simulateTo s t = (s, []) ∧ direction s t = -1 ∧
    (simulateTo s t).1.isRunning = false := by
  have he := simulateTo_eq_self s t hrun ht
  refine ⟨he, ?_, by rw [he]; exact hrun⟩
  unfold direction
  rw [if_neg (by omega)]

/-- C10, witness: the equal-target no-op evaluated on the example simulator
at its construction year. -/
theorem c10_simulateTo_same_year_witness :
    simulateTo exSim 2025 = (exSim, []) ∧ direction exSim 2025 = -1 ∧
    (simulateTo exSim 2025).1.isRunning = false :=
  c10_simulateTo_same_year exSim 2025 rfl rfl

/-- C5, counterexample: from a well-formed city with airQuality 100, running
simulateTo backward to 2022 and then forward to 2023 executes a forward step
below the base year whose yearly formula pushes airQuality to 101, violating
the claimed [0,100] bound after a time step. -/
theorem c5_bounds_counterexample :
    WF exSimHi.stats ∧
    ((simulateTo ((simulateTo exSimHi 2022).1) 2023).1).stats.airQuality = 101 := by
  refine ⟨by decide, ?_⟩
  have hrun0 : exSimHi.isRunning = false := rfl
  have hfr := simulateTo_frame exSimHi 2022
  have hcy1 : ((simulateTo exSimHi 2022).1).currentYear = 2022 :=
    simulateTo_currentYear _ _ hrun0
  have h4 := simulateTo_four_forward ((simulateTo exSimHi 2022).1) 2023
    (hfr.2.2.1.trans hrun0) (by rw [hcy1]; norm_num)
  rw [hfr.1, hfr.2.1] at h4
  have haq : ((simulateTo ((simulateTo exSimHi 2022).1) 2023).1).stats.airQuality =
      (yearlyFour exStatsHi 2025 2023).2.1 := congrArg (fun p => p.2.1) h4
  rw [haq]
  norm_num [yearlyFour, jsRound, exStatsHi]

/-- C5, amended: assuming a well-formed current and baseline statistics
record, every bounded metric is again a well-formed integer in [0,100] after
any applyScenario call and after any single time step whose direction is
backward or whose forward landing year is not below the base year; the
excluded case — a forward step landing strictly below the base year — can
exceed 100, as the counterexample shows. -/
theorem c5_bounded_invariant (s : SimState) (id : String) (dir : ℤ)
    (hw : WF s.stats) (hwb : WF s.baselineStats)
    (hdir : dir = -1 ∨ (dir = 1 ∧ s.baseYear ≤ s.currentYear + 1)) :
    WF ((applyScenario s id).2).stats ∧ WF (stepOnce s dir).stats :=
  ⟨applyScenario_WF s id hw, stepOnce_WF s dir hw hwb hdir⟩

/-- C5, witness: the bounded-metric invariant evaluated on the example city
for the add-transit scenario and a forward step from the base year. -/
theorem c5_bounded_invariant_witness :
    WF ((applyScenario exSim "add-transit").2).stats ∧
    WF (stepOnce exSim 1).stats :=
  c5_bounded_invariant exSim "add-transit" 1 (by decide) (by decide)
    (Or.inr ⟨rfl, by decide⟩)

/-- C8, counterexample: from baseline population 500000, a forward run of ten
years stores population 580270 = round(500000 * 1.015 ^ 10), not the 580037
stated in the claim. -/
theorem c8_population_example_counterexample :
    ((simulateTo exSim 2035).1).stats.population = 580270 ∧
    (580270 : ℚ) ≠ 580037 := by
  constructor
  · have h4 := simulateTo_four_forward exSim 2035 rfl (show (2025:ℤ) < 2035 by norm_num)
    have hp : ((simulateTo exSim 2035).1).stats.population =
        (yearlyFour exStats 2025 2035).1 := congrArg (fun p => p.1) h4
    rw [hp]
    norm_num [yearlyFour, jsRound, exStats]
  · norm_num

/-- C8, amended: for every baseline and every forward target, the stored
population after the run equals round(baseline.population * 1.015 ^ elapsed),
computed from the baseline; in particular ten years from population 500000
yields 580270 (the claimed example value 580037 is wrong). -/
theorem c8_population_growth_formula (b : Stats) (d : ZoneDist) (y0 t : ℤ)
    (h : y0 < t) :
    ((simulateTo (mkSimulator b d y0) t).1).stats.population =
      ↑(jsRound (b.population * (1 + 15/1000 : ℚ) ^ (t - y0))) := by
  have h4 := simulateTo_four_forward (mkSimulator b d y0) t rfl
    (show (mkSimulator b d y0).currentYear < t from h)
  exact congrArg (fun p => p.1) h4

/-- C8, witness: the compound-growth formula evaluated on the example city
over the ten-year horizon, with the resulting value 580270. -/
theorem c8_population_growth_formula_witness :
    ((simulateTo (mkSimulator exStats exDist 2025) 2035).1).stats.population =
      ↑(jsRound (exStats.population * (1 + 15/1000 : ℚ) ^ ((2035 : ℤ) - 2025))) ∧
    (↑(jsRound (exStats.population * (1 + 15/1000 : ℚ) ^ ((2035 : ℤ) - 2025))) : ℚ)
      = 580270 :=
  ⟨c8_population_growth_formula exStats exDist 2025 2035 (by decide),
   by norm_num [jsRound, exStats]⟩

/-- C2, counterexample: apply green-expansion (sustainabilityScore 50 to 58),
step forward one year (58 persists), then step back to the base year: the
backward step restores the entire baseline record, so sustainabilityScore
drops back to 50 — the claimed four-field frame property fails for backward
runs reaching the base year. -/
theorem c2_restore_counterexample :
    ((applyScenario exSim "green-expansion").2).stats.sustainabilityScore = 58 ∧
    ((simulateTo ((applyScenario exSim "green-expansion").2) 2026).1).stats.sustainabilityScore
      = 58 ∧
    ((simulateTo ((simulateTo ((applyScenario exSim "green-expansion").2) 2026).1)
      2025).1).stats.sustainabilityScore = 50 := by
  have ha : ((applyScenario exSim "green-expansion").2).stats.sustainabilityScore = 58 := by
    rw [applyScenario_known_stats exSim "green-expansion" greenExpansion rfl]
    show (↑(jsRound (clamp01 (jsOr
      ((greenExpansion.modifier (snapshotOf exSim.stats)).sustainabilityScore)
      exSim.stats.sustainabilityScore))) : ℚ) = 58
    norm_num [greenExpansion, snapshotOf, exSim, exStats, mkSimulator, jsOr, jsRound,
      clamp01]
  have hfrA := applyScenario_frame exSim "green-expansion"
  have hrun1 : ((applyScenario exSim "green-expansion").2).isRunning = false :=
    hfrA.2.2.2.1.trans rfl
  have hcy1 : ((applyScenario exSim "green-expansion").2).currentYear = 2025 :=
    hfrA.2.2.1.trans rfl
  have hoth := simulateTo_other_frame ((applyScenario exSim "green-expansion").2) 2026
    (Or.inl (by rw [hcy1]; norm_num))
  have hb : ((simulateTo ((applyScenario exSim "green-expansion").2) 2026).1).stats.sustainabilityScore
      = ((applyScenario exSim "green-expansion").2).stats.sustainabilityScore :=
    congrArg (fun p => p.1) hoth
  have hfrS := simulateTo_frame ((applyScenario exSim "green-expansion").2) 2026
  have hrun2 : ((simulateTo ((applyScenario exSim "green-expansion").2) 2026).1).isRunning
      = false := hfrS.2.2.1.trans hrun1
  have hcy2 : ((simulateTo ((applyScenario exSim "green-expansion").2) 2026).1).currentYear
      = 2026 := simulateTo_currentYear _ _ hrun1
  have hby2 : ((simulateTo ((applyScenario exSim "green-expansion").2) 2026).1).baseYear
      = 2025 := hfrS.2.1.trans (hfrA.2.1.trans rfl)
  have hres := simulateTo_backward_restore
    ((simulateTo ((applyScenario exSim "green-expansion").2) 2026).1) 2025 hrun2
    (by rw [hcy2]; norm_num) (by rw [hby2])
  refine ⟨ha, hb.trans ha, ?_⟩
  rw [hres, hfrS.1, hfrA.1]
  rfl

/-- C2, amended: the time-stepping loop touches only population, airQuality,
walkability, carbonFootprint, and never the zone distribution, provided the
run is forward or its backward target lies strictly above the base year;
a backward run reaching the base year instead restores the whole baseline
record (see the counterexample). -/
theorem c2_step_frame (s : SimState) (t : ℤ)
    (h : s.currentYear < t ∨ s.baseYear < t) :
    otherOf ((simulateTo s t).1).stats = otherOf s.stats ∧
    (simulateTo s t).1.distribution = s.distribution :=
  ⟨simulateTo_other_frame s t h, (simulateTo_frame s t).2.2.2.1⟩

/-- C2, witness: the frame property evaluated on a forward run of the example
city from 2025 to 2030. -/
theorem c2_step_frame_witness :
    otherOf ((simulateTo exSim 2030).1).stats = otherOf exSim.stats ∧
    (simulateTo exSim 2030).1.distribution = exSim.distribution :=
  c2_step_frame exSim 2030 (Or.inl (by decide))

/-- C9: the zone-distribution view returns empty label/data/color sequences
when the denominator (all zone counts minus empty) is zero, and on the
example counts of the specification produces the shares 40, 10, 5, 20, 5, 20 in
the fixed zone order with the ZONE_TYPES names and colors. -/
theorem c9_zone_distribution (d : ZoneDist) :
    (totalNonEmpty d = 0 → getZoneDistribution d = ⟨[], [], []⟩) ∧
    getZoneDistribution exDist =
      ⟨["Residential", "Commercial", "Industrial", "Green Space", "Transit Hub", "Road"],
       [40, 10, 5, 20, 5, 20],
       ["#3b82f6", "#f59e0b", "#6b7280", "#22c55e", "#ec4899", "#374151"]⟩ := by
  constructor
  · intro h
    unfold getZoneDistribution
    rw [if_pos h]
  · norm_num [getZoneDistribution, totalNonEmpty, zoneRows, exDist, jsRound, List.filter]

/-- C9, witness: the zero-denominator branch evaluated on a distribution with
only empty cells. -/
theorem c9_zone_distribution_witness :
    getZoneDistribution ⟨5, 0, 0, 0, 0, 0, 0⟩ = ⟨[], [], []⟩ :=
  (c9_zone_distribution ⟨5, 0, 0, 0, 0, 0, 0⟩).1 (by decide)
